import Mathlib

/-!
Shallow embedding of `fiscalyear.py`: fiscal-calendar boundaries (fiscal
years, fiscal quarters) and fiscal-aware calendar dates, plus the input
validation helpers.  Python ints are modelled as `Int`; Python `//` is
`Int.fdiv` (floor division) and `%` is `Int.emod` (result has the sign of
the divisor, hence nonnegative for divisor 12).  Fallible operations
(constructors raising, `datetime.datetime` range checks) return
`Except PyError _`.
-/

namespace Fiscalyear

/-- Kinds of Python exceptions the embedded code can raise. -/
inductive PyError where
  | typeError
  | valueError
  | attributeError
  | assertionError
deriving DecidableEq, Repr

/-- A Python value passed to `_check_int`: an `int`, a `str`, or a value of
any other type. -/
inductive PyInput where
  | int (n : Int)
  | str (s : String)
  | otherVal
deriving DecidableEq, Repr

/-- `START_DAY = 1` (module constant). -/
def START_DAY : Int := 1

/-- `START_MONTH = 10` (module constant, U.S. federal fiscal year). -/
def START_MONTH : Int := 10

/-- `MONTHS_PER_QUARTER = 12 // 4` (module constant). -/
def MONTHS_PER_QUARTER : Int := Int.fdiv 12 4

/-- `MIN_QUARTER = 1` (module constant). -/
def MIN_QUARTER : Int := 1

/-- `MAX_QUARTER = 4` (module constant). -/
def MAX_QUARTER : Int := 4

/-- `datetime.MINYEAR` in CPython. -/
def MINYEAR : Int := 1

/-- `datetime.MAXYEAR` in CPython. -/
def MAXYEAR : Int := 9999

/-- `_check_int(value)` from `fiscalyear.py` lines 22-36.  The source reads
`elif isinstance(value, str) and value.is_digit():` — but Python's `str`
type has no method named `is_digit` (the real method is `isdigit`), so for
every string input the attribute lookup itself raises `AttributeError`
before any digit test can run; the string's content is never examined.
Inputs of any other type fall through to the `TypeError` branch. -/
def check_int (v : PyInput) : Except PyError Int :=
  match v with
  | .int n => .ok n
  | .str _ => .error .attributeError
  | .otherVal => .error .typeError

/-- `_check_year(year)` from `fiscalyear.py` lines 39-53: `_check_int`
followed by the `MINYEAR <= year <= MAXYEAR` range check. -/
def check_year (v : PyInput) : Except PyError Int := do
  let year ← check_int v
  if MINYEAR ≤ year ∧ year ≤ MAXYEAR then .ok year
  else .error .valueError

/-- `_check_quarter(quarter)` from `fiscalyear.py` lines 56-70: `_check_int`
followed by the `MIN_QUARTER <= quarter <= MAX_QUARTER` range check.
(Note: nothing in the module ever calls this function.) -/
def check_quarter (v : PyInput) : Except PyError Int := do
  let quarter ← check_int v
  if MIN_QUARTER ≤ quarter ∧ quarter ≤ MAX_QUARTER then .ok quarter
  else .error .valueError

/-- `FiscalYear.__new__` (lines 78-92): validates with `_check_year` and
stores the integer fiscal year. -/
def FiscalYear_new (v : PyInput) : Except PyError Int :=
  check_year v

/-- `calendar.isleap(year)`: `year % 4 == 0 and (year % 100 != 0 or
year % 400 == 0)`.  Python `%` on a positive divisor is `Int.emod`. -/
def isLeap (y : Int) : Bool :=
  Int.emod y 4 == 0 && (Int.emod y 100 != 0 || Int.emod y 400 == 0)

/-- `calendar.monthrange(year, month)[1]`: the number of days of the given
month, honouring leap-year February. -/
def daysInMonth (y m : Int) : Int :=
  if m == 2 then (if isLeap y then 29 else 28)
  else if m == 4 || m == 6 || m == 9 || m == 11 then 30
  else 31

/-- A `datetime.datetime` value (to second precision, as used by the
module). -/
structure Datetime where
  year : Int
  month : Int
  day : Int
  hour : Int
  minute : Int
  second : Int
deriving DecidableEq, Repr

/-- The `datetime.datetime(year, month, day, hour, minute, second)`
constructor: raises `ValueError` when any component is out of range
(`MINYEAR <= year <= MAXYEAR`, `1 <= month <= 12`,
`1 <= day <= days-in-month`, and the clock fields in range). -/
def datetime_mk (y mo d h mi s : Int) : Except PyError Datetime :=
  if MINYEAR ≤ y ∧ y ≤ MAXYEAR ∧ 1 ≤ mo ∧ mo ≤ 12 ∧
     1 ≤ d ∧ d ≤ daysInMonth y mo ∧
     0 ≤ h ∧ h ≤ 23 ∧ 0 ≤ mi ∧ mi ≤ 59 ∧ 0 ≤ s ∧ s ≤ 59
  then .ok ⟨y, mo, d, h, mi, s⟩
  else .error .valueError

/-- `FiscalQuarter.__init__` (lines 209-216): four bare `assert`
statements.  For `Int` inputs the two `isinstance` asserts always pass;
the range asserts raise `AssertionError` (not `ValueError`) when violated.
Returns the stored `(fiscal_year, quarter)` pair on success. -/
def FiscalQuarter_init (fiscal_year quarter : Int) : Except PyError (Int × Int) :=
  if MINYEAR ≤ fiscal_year ∧ fiscal_year ≤ MAXYEAR then
    if 1 ≤ quarter ∧ quarter ≤ 4 then .ok (fiscal_year, quarter)
    else .error .assertionError
  else .error .assertionError

/-- The first calendar month of fiscal quarter `quarter` (from
`FiscalQuarter.start`, lines 228-233): `month = START_MONTH +
(quarter - 1) * MONTHS_PER_QUARTER; month %= 12; if month == 0: month = 12`. -/
def fqStartMonth (quarter : Int) : Int :=
  let month := START_MONTH + (quarter - 1) * MONTHS_PER_QUARTER
  let month := Int.emod month 12
  if month == 0 then 12 else month

/-- `FiscalQuarter.start` (lines 226-240): first instant of the quarter.
The calendar year is `fiscal_year - 1` when the computed month is
`>= START_MONTH`, else `fiscal_year`. -/
def fqStart (fiscal_year quarter : Int) : Except PyError Datetime :=
  let month := fqStartMonth quarter
  let year := if month ≥ START_MONTH then fiscal_year - 1 else fiscal_year
  datetime_mk year month START_DAY 0 0 0

/-- The last calendar month of fiscal quarter `quarter` (from
`FiscalQuarter.end`, lines 244-249): `month = START_MONTH +
quarter * MONTHS_PER_QUARTER - 1; month %= 12; if month == 0: month = 12`. -/
def fqEndMonth (quarter : Int) : Int :=
  let month := START_MONTH + quarter * MONTHS_PER_QUARTER - 1
  let month := Int.emod month 12
  if month == 0 then 12 else month

/-- `FiscalQuarter.end` (lines 242-259): last instant (23:59:59) of the
last day of the quarter's last month, via `calendar.monthrange`. -/
def fqEnd (fiscal_year quarter : Int) : Except PyError Datetime :=
  let month := fqEndMonth quarter
  let year := if month ≥ START_MONTH then fiscal_year - 1 else fiscal_year
  let day := daysInMonth year month
  datetime_mk year month day 23 59 59

/-- `FiscalYear.start` (lines 127-133): `self.q1.start`, i.e. the start of
`FiscalQuarter(fiscal_year, 1)`. -/
def fyStart (fiscal_year : Int) : Except PyError Datetime :=
  fqStart fiscal_year 1

/-- `FiscalYear.end` (lines 135-141): `self.q4.end`, i.e. the end of
`FiscalQuarter(fiscal_year, 4)`. -/
def fyEnd (fiscal_year : Int) : Except PyError Datetime :=
  fqEnd fiscal_year 4

/-- A `FiscalDate`: a `datetime.date` (year, month, day) with fiscal
accessors.  `datetime.date` guarantees its fields in range at
construction; `valid` states that invariant. -/
structure FiscalDate where
  year : Int
  month : Int
  day : Int
deriving DecidableEq, Repr

/-- The `datetime.date` construction invariant every live `FiscalDate`
satisfies. -/
def FiscalDate.valid (d : FiscalDate) : Prop :=
  MINYEAR ≤ d.year ∧ d.year ≤ MAXYEAR ∧ 1 ≤ d.month ∧ d.month ≤ 12 ∧
  1 ≤ d.day ∧ d.day ≤ daysInMonth d.year d.month

instance (d : FiscalDate) : Decidable d.valid := by
  unfold FiscalDate.valid; infer_instance

/-- `FiscalDate.fiscal_year` (lines 288-296): calendar year, plus one when
the month is `>= START_MONTH`. -/
def FiscalDate.fiscal_year (d : FiscalDate) : Int :=
  if d.month ≥ START_MONTH then d.year + 1 else d.year

/-- `FiscalDate.quarter` (lines 319-329): `month -= START_MONTH`; add 12 if
negative; `quarter = month // MONTHS_PER_QUARTER + 1`. -/
def FiscalDate.quarter (d : FiscalDate) : Int :=
  let month := d.month - START_MONTH
  let month := if month < 0 then month + 12 else month
  Int.fdiv month MONTHS_PER_QUARTER + 1

/-- `FiscalDate.prev_quarter` (lines 331-339): quarter minus one, wrapping
0 to 4. -/
def FiscalDate.prev_quarter (d : FiscalDate) : Int :=
  let quarter := d.quarter - 1
  if quarter = 0 then 4 else quarter

/-- `FiscalDate.next_quarter` (lines 341-349): quarter plus one, wrapping
5 to 1. -/
def FiscalDate.next_quarter (d : FiscalDate) : Int :=
  let quarter := d.quarter + 1
  if quarter = 5 then 1 else quarter

/-- `FiscalDate.prev_quarter_fiscal_year` (lines 299-307): fiscal year,
minus one when the current quarter is 1. -/
def FiscalDate.prev_quarter_fiscal_year (d : FiscalDate) : Int :=
  let fiscal_year := d.fiscal_year
  if d.quarter = 1 then fiscal_year - 1 else fiscal_year

/-- `FiscalDate.next_quarter_fiscal_year` (lines 309-317): fiscal year,
plus one when the current quarter is 4. -/
def FiscalDate.next_quarter_fiscal_year (d : FiscalDate) : Int :=
  let fiscal_year := d.fiscal_year
  if d.quarter = 4 then fiscal_year + 1 else fiscal_year

/-- The date component of a `datetime.datetime` (its `.date()` method). -/
def toDate (dt : Datetime) : FiscalDate :=
  ⟨dt.year, dt.month, dt.day⟩

/-- `FiscalDate.is_quarter_start(quarter)` (lines 351-354): construct
`FiscalQuarter(self.fiscal_year, quarter)` — whose `__init__` asserts run
first, so a fiscal year outside 1..9999 (e.g. 10000, reached from dates
in Oct-Dec 9999) raises `AssertionError` — then compare the date with its
`.start.date()`, propagating the `ValueError` when the start instant is
unrepresentable. -/
def FiscalDate.is_quarter_start (d : FiscalDate) (quarter : Int) :
    Except PyError Bool := do
  let fq ← FiscalQuarter_init d.fiscal_year quarter
  (fqStart fq.1 fq.2).map (fun s => decide (d = toDate s))

/-- `FiscalDate.is_quarter_end(quarter)` (lines 368-371): construct
`FiscalQuarter(self.fiscal_year, quarter)` (its `__init__` asserts run
first, as in `is_quarter_start`), then compare the date with its
`.end.date()`. -/
def FiscalDate.is_quarter_end (d : FiscalDate) (quarter : Int) :
    Except PyError Bool := do
  let fq ← FiscalQuarter_init d.fiscal_year quarter
  (fqEnd fq.1 fq.2).map (fun e => decide (d = toDate e))

/-- `FiscalDate.is_q1_start` (lines 356-357). -/
def FiscalDate.is_q1_start (d : FiscalDate) : Except PyError Bool :=
  d.is_quarter_start 1

/-- `FiscalDate.is_q2_start` (lines 359-360). -/
def FiscalDate.is_q2_start (d : FiscalDate) : Except PyError Bool :=
  d.is_quarter_start 2

/-- `FiscalDate.is_q3_start` (lines 362-363). -/
def FiscalDate.is_q3_start (d : FiscalDate) : Except PyError Bool :=
  d.is_quarter_start 3

/-- `FiscalDate.is_q4_start` (lines 365-366). -/
def FiscalDate.is_q4_start (d : FiscalDate) : Except PyError Bool :=
  d.is_quarter_start 4

/-- `FiscalDate.is_q1_end` (lines 373-374). -/
def FiscalDate.is_q1_end (d : FiscalDate) : Except PyError Bool :=
  d.is_quarter_end 1

/-- `FiscalDate.is_q2_end` (lines 376-377). -/
def FiscalDate.is_q2_end (d : FiscalDate) : Except PyError Bool :=
  d.is_quarter_end 2

/-- `FiscalDate.is_q3_end` (lines 379-380). -/
def FiscalDate.is_q3_end (d : FiscalDate) : Except PyError Bool :=
  d.is_quarter_end 3

/-- `FiscalDate.is_q4_end` (lines 382-383). -/
def FiscalDate.is_q4_end (d : FiscalDate) : Except PyError Bool :=
  d.is_quarter_end 4

/-- The second argument of a `FiscalYear` comparison dunder: another
`FiscalYear` (carrying its integer year) or a value of an unrelated type. -/
inductive PyObj where
  | fy (year : Int)
  | otherObj
deriving DecidableEq, Repr

/-- `FiscalYear.__lt__` (lines 177-180): integer comparison between two
`FiscalYear`s, `NotImplemented` (modelled as `none`) otherwise. -/
def FiscalYear_lt (self : Int) (o : PyObj) : Option Bool :=
  match o with
  | .fy y => some (decide (self < y))
  | .otherObj => none

/-- `FiscalYear.__le__` (lines 182-185). -/
def FiscalYear_le (self : Int) (o : PyObj) : Option Bool :=
  match o with
  | .fy y => some (decide (self ≤ y))
  | .otherObj => none

/-- `FiscalYear.__eq__` (lines 187-190). -/
def FiscalYear_eq (self : Int) (o : PyObj) : Option Bool :=
  match o with
  | .fy y => some (decide (self = y))
  | .otherObj => none

/-- `FiscalYear.__ne__` (lines 192-195). -/
def FiscalYear_ne (self : Int) (o : PyObj) : Option Bool :=
  match o with
  | .fy y => some (decide (self ≠ y))
  | .otherObj => none

/-- `FiscalYear.__gt__` (lines 197-200). -/
def FiscalYear_gt (self : Int) (o : PyObj) : Option Bool :=
  match o with
  | .fy y => some (decide (self > y))
  | .otherObj => none

/-- `FiscalYear.__ge__` (lines 202-205). -/
def FiscalYear_ge (self : Int) (o : PyObj) : Option Bool :=
  match o with
  | .fy y => some (decide (self ≥ y))
  | .otherObj => none

/-- Modelled from the spec: the spec's reverse-mapping formula for the
fiscal quarter of a calendar date, read literally — "shift the calendar
month back by `start_month - 1` positions (wrapping negative results by
adding 12), then `quarter = (shifted_month) div months_per_quarter + 1`".
Kept separate from `FiscalDate.quarter` so the two can be compared. -/
def quarterSpecFormula (d : FiscalDate) : Int :=
  let shifted := d.month - (START_MONTH - 1)
  let shifted := if shifted < 0 then shifted + 12 else shifted
  Int.fdiv shifted MONTHS_PER_QUARTER + 1

/-- The Gregorian calendar successor of a date: next day in the same
month, else first day of the next month, else January 1 of the next
year.  (Date-plus-one-day, as `datetime.timedelta(1)` computes it.) -/
def nextDay (d : FiscalDate) : FiscalDate :=
  if d.day < daysInMonth d.year d.month then ⟨d.year, d.month, d.day + 1⟩
  else if d.month < 12 then ⟨d.year, d.month + 1, 1⟩
  else ⟨d.year + 1, 1, 1⟩

/-- The Gregorian calendar predecessor of a date (date-minus-one-day). -/
def prevDay (d : FiscalDate) : FiscalDate :=
  if 1 < d.day then ⟨d.year, d.month, d.day - 1⟩
  else if 1 < d.month then ⟨d.year, d.month - 1, daysInMonth d.year (d.month - 1)⟩
  else ⟨d.year - 1, 12, 31⟩

/-- The quarters of fiscal year `y` tile its span: the date of Q1's end
plus one day is the date of Q2's start, and likewise Q2/Q3 and Q3/Q4.
`false` when any of the four boundary instants is unrepresentable. -/
def quartersPartitionB (y : Int) : Bool :=
  match fqEnd y 1, fqStart y 2, fqEnd y 2, fqStart y 3, fqEnd y 3, fqStart y 4 with
  | .ok e1, .ok s2, .ok e2, .ok s3, .ok e3, .ok s4 =>
    decide (nextDay (toDate e1) = toDate s2) &&
    decide (nextDay (toDate e2) = toDate s3) &&
    decide (nextDay (toDate e3) = toDate s4)
  | _, _, _, _, _, _ => false

/-- Round trip for fiscal year `y`, quarter `q`: the calendar date one day
before `FiscalQuarter(y, q).start` is a representable date whose fiscal
quarter is `q - 1` (wrapping 1 to 4) and whose fiscal year is `y`
(respectively `y - 1` when `q = 1`).  `false` when the start instant is
unrepresentable or the previous day is not a representable date. -/
def roundTripB (y q : Int) : Bool :=
  match fqStart y q with
  | .ok s =>
    let d := prevDay (toDate s)
    decide d.valid &&
    decide (d.quarter = if q = 1 then 4 else q - 1) &&
    decide (d.fiscal_year = if q = 1 then y - 1 else y)
  | .error _ => false

/-! Helper lemmas shared by the claim theorems: evaluation of closed floor
divisions and characterisations of the quarter boundary instants for a
symbolic in-range fiscal year. -/

lemma fdiv_12_4 : Int.fdiv 12 4 = 3 := rfl

lemma fdiv_0_3 : Int.fdiv 0 3 = 0 := rfl

lemma fdiv_1_3 : Int.fdiv 1 3 = 0 := rfl

lemma fdiv_2_3 : Int.fdiv 2 3 = 0 := rfl

lemma fdiv_3_3 : Int.fdiv 3 3 = 1 := rfl

lemma fdiv_4_3 : Int.fdiv 4 3 = 1 := rfl

lemma fdiv_5_3 : Int.fdiv 5 3 = 1 := rfl

lemma fdiv_6_3 : Int.fdiv 6 3 = 2 := rfl

lemma fdiv_7_3 : Int.fdiv 7 3 = 2 := rfl

lemma fdiv_8_3 : Int.fdiv 8 3 = 2 := rfl

lemma fdiv_9_3 : Int.fdiv 9 3 = 3 := rfl

lemma fdiv_10_3 : Int.fdiv 10 3 = 3 := rfl

lemma fdiv_11_3 : Int.fdiv 11 3 = 3 := rfl

lemma datetime_mk_ok (y mo d h mi s : Int) (h1 : 1 ≤ y) (h2 : y ≤ 9999)
    (h3 : 1 ≤ mo) (h4 : mo ≤ 12) (h5 : 1 ≤ d) (h6 : d ≤ daysInMonth y mo)
    (h7 : 0 ≤ h) (h8 : h ≤ 23) (h9 : 0 ≤ mi) (h10 : mi ≤ 59)
    (h11 : 0 ≤ s) (h12 : s ≤ 59) :
    datetime_mk y mo d h mi s = .ok ⟨y, mo, d, h, mi, s⟩ := by
  unfold datetime_mk
  exact if_pos ⟨h1, h2, h3, h4, h5, h6, h7, h8, h9, h10, h11, h12⟩

lemma fqStart_q1 (y : Int) (h2 : 2 ≤ y) (h9 : y ≤ 9999) :
    fqStart y 1 = .ok ⟨y - 1, 10, 1, 0, 0, 0⟩ := by
  show datetime_mk (y - 1) 10 1 0 0 0 = _
  exact datetime_mk_ok _ _ _ _ _ _ (by omega) (by omega) (by omega) (by omega)
    (by omega) (by norm_num [daysInMonth]) (by omega) (by omega) (by omega) (by omega)
    (by omega) (by omega)

lemma fqEnd_q1 (y : Int) (h2 : 2 ≤ y) (h9 : y ≤ 9999) :
    fqEnd y 1 = .ok ⟨y - 1, 12, 31, 23, 59, 59⟩ := by
  show datetime_mk (y - 1) 12 31 23 59 59 = _
  exact datetime_mk_ok _ _ _ _ _ _ (by omega) (by omega) (by omega) (by omega)
    (by omega) (le_refl 31) (by omega) (by omega) (by omega) (by omega)
    (by omega) (by omega)

lemma fqStart_q2 (y : Int) (h1 : 1 ≤ y) (h9 : y ≤ 9999) :
    fqStart y 2 = .ok ⟨y, 1, 1, 0, 0, 0⟩ := by
  show datetime_mk y 1 1 0 0 0 = _
  exact datetime_mk_ok _ _ _ _ _ _ h1 h9 (by omega) (by omega)
    (by omega) (by norm_num [daysInMonth]) (by omega) (by omega) (by omega) (by omega)
    (by omega) (by omega)

lemma fqEnd_q2 (y : Int) (h1 : 1 ≤ y) (h9 : y ≤ 9999) :
    fqEnd y 2 = .ok ⟨y, 3, 31, 23, 59, 59⟩ := by
  show datetime_mk y 3 31 23 59 59 = _
  exact datetime_mk_ok _ _ _ _ _ _ h1 h9 (by omega) (by omega)
    (by omega) (le_refl 31) (by omega) (by omega) (by omega) (by omega)
    (by omega) (by omega)

lemma fqStart_q3 (y : Int) (h1 : 1 ≤ y) (h9 : y ≤ 9999) :
    fqStart y 3 = .ok ⟨y, 4, 1, 0, 0, 0⟩ := by
  show datetime_mk y 4 1 0 0 0 = _
  exact datetime_mk_ok _ _ _ _ _ _ h1 h9 (by omega) (by omega)
    (by omega) (by norm_num [daysInMonth]) (by omega) (by omega) (by omega) (by omega)
    (by omega) (by omega)

lemma fqEnd_q3 (y : Int) (h1 : 1 ≤ y) (h9 : y ≤ 9999) :
    fqEnd y 3 = .ok ⟨y, 6, 30, 23, 59, 59⟩ := by
  show datetime_mk y 6 30 23 59 59 = _
  exact datetime_mk_ok _ _ _ _ _ _ h1 h9 (by omega) (by omega)
    (by omega) (le_refl 30) (by omega) (by omega) (by omega) (by omega)
    (by omega) (by omega)

lemma fqStart_q4 (y : Int) (h1 : 1 ≤ y) (h9 : y ≤ 9999) :
    fqStart y 4 = .ok ⟨y, 7, 1, 0, 0, 0⟩ := by
  show datetime_mk y 7 1 0 0 0 = _
  exact datetime_mk_ok _ _ _ _ _ _ h1 h9 (by omega) (by omega)
    (by omega) (by norm_num [daysInMonth]) (by omega) (by omega) (by omega) (by omega)
    (by omega) (by omega)

/-- C1: the claim says `_check_int` accepts an integer unchanged, coerces a
digit-only string to the corresponding integer, and rejects every other
shape with a `TypeError`.  The code instead calls `value.is_digit()`, a
method Python's `str` does not have (the real method is `isdigit`), so
EVERY string input — digit-only or not — raises `AttributeError` before
any digit test or coercion can happen; only the integer and
other-type branches behave as claimed.  This contradicts the function's
own docstring ("Check if value is an int or int-like string ... raises
TypeError"), so the code, not the claim, is wrong. -/
theorem C1_check_int_behavior :
    check_int (.int 2017) = .ok 2017 ∧
    check_int (.str "2017") = .error .attributeError ∧
    check_int (.str "abc") = .error .attributeError ∧
    check_int .otherVal = .error .typeError ∧
    FiscalYear_new (.str "2017") = .error .attributeError :=
  ⟨rfl, rfl, rfl, rfl, rfl⟩

/-- C2: the claim says constructing `FiscalQuarter(2017, 5)` raises a
`ValueError`.  The code's `FiscalQuarter.__init__` validates with bare
`assert` statements, so it raises `AssertionError` instead; the module's
`_check_quarter` — which does raise `ValueError` exactly as the claim
describes — is never called by anything.  The code contradicts the
module's own validation helper, so this is recorded as a code bug. -/
theorem C2_quarter_out_of_range_behavior :
    FiscalQuarter_init 2017 5 = .error .assertionError ∧
    check_quarter (.int 5) = .error .valueError ∧
    check_year (.int 2017) = .ok 2017 :=
  ⟨rfl, rfl, rfl⟩

/-- C3 counterexample: the spec's literal reverse-mapping formula ("shift
the calendar month back by `start_month - 1` positions, wrapping negatives
by adding 12, then divide by months-per-quarter and add 1") disagrees with
`FiscalDate.quarter` at 2017-12-15: the code yields quarter 1 (December is
in Q1 under the October-1 start) while the literal formula yields 2. -/
theorem C3_quarter_formula_counterexample :
    FiscalDate.quarter ⟨2017, 12, 15⟩ = 1 ∧
    quarterSpecFormula ⟨2017, 12, 15⟩ = 2 ∧
    FiscalDate.quarter ⟨2017, 12, 15⟩ ≠ quarterSpecFormula ⟨2017, 12, 15⟩ := by
  refine ⟨rfl, rfl, ?_⟩
  intro h
  exact absurd h (by decide)

/-- C3 amended: for every calendar date, `FiscalDate.quarter` shifts the
calendar month back by `start_month` positions (not `start_month - 1`),
adding 12 when the result is negative, then divides by months-per-quarter
and adds 1 — equivalently `((month - start_month) mod 12) div 3 + 1` with
a mathematical (sign-of-divisor) modulus. -/
theorem C3_quarter_formula_amended (d : FiscalDate) (h1 : 1 ≤ d.month) (h2 : d.month ≤ 12) :
    d.quarter = Int.fdiv (Int.emod (d.month - START_MONTH) 12) MONTHS_PER_QUARTER + 1 := by
  obtain ⟨y, m, dd⟩ := d
  simp only at h1 h2
  interval_cases m <;> rfl

/-- C3 witness: the amended formula instantiated at 2017-12-15. -/
theorem C3_quarter_formula_amended_witness :
    FiscalDate.quarter ⟨2017, 12, 15⟩ =
      Int.fdiv (Int.emod ((⟨2017, 12, 15⟩ : FiscalDate).month - START_MONTH) 12)
        MONTHS_PER_QUARTER + 1 :=
  C3_quarter_formula_amended ⟨2017, 12, 15⟩ (by decide) (by decide)

/-- C4: for every calendar date the fiscal year is the calendar year plus
one when the month is at least the start month and the calendar year
otherwise; and, concretely, 2017-10-01 has fiscal year 2018, quarter 1,
`is_q1_start` true, and the seven other start/end predicates false. -/
theorem C4_fiscal_year_and_date_classification :
    (∀ d : FiscalDate, d.fiscal_year = if d.month ≥ START_MONTH then d.year + 1 else d.year) ∧
    FiscalDate.fiscal_year ⟨2017, 10, 1⟩ = 2018 ∧
    FiscalDate.quarter ⟨2017, 10, 1⟩ = 1 ∧
    FiscalDate.is_q1_start ⟨2017, 10, 1⟩ = .ok true ∧
    FiscalDate.is_q2_start ⟨2017, 10, 1⟩ = .ok false ∧
    FiscalDate.is_q3_start ⟨2017, 10, 1⟩ = .ok false ∧
    FiscalDate.is_q4_start ⟨2017, 10, 1⟩ = .ok false ∧
    FiscalDate.is_q1_end ⟨2017, 10, 1⟩ = .ok false ∧
    FiscalDate.is_q2_end ⟨2017, 10, 1⟩ = .ok false ∧
    FiscalDate.is_q3_end ⟨2017, 10, 1⟩ = .ok false ∧
    FiscalDate.is_q4_end ⟨2017, 10, 1⟩ = .ok false :=
  ⟨fun _ => rfl, rfl, rfl, rfl, rfl, rfl, rfl, rfl, rfl, rfl, rfl⟩

/-- C5: under the default configuration (start month October, start day
1), fiscal year 2017 starts 2016-10-01T00:00:00 and ends
2017-09-30T23:59:59; its Q1 runs 2016-10-01T00:00:00 through
2016-12-31T23:59:59 and its Q2 starts 2017-01-01T00:00:00. -/
theorem C5_default_config_concrete :
    fyStart 2017 = .ok ⟨2016, 10, 1, 0, 0, 0⟩ ∧
    fyEnd 2017 = .ok ⟨2017, 9, 30, 23, 59, 59⟩ ∧
    fqStart 2017 1 = .ok ⟨2016, 10, 1, 0, 0, 0⟩ ∧
    fqEnd 2017 1 = .ok ⟨2016, 12, 31, 23, 59, 59⟩ ∧
    fqStart 2017 2 = .ok ⟨2017, 1, 1, 0, 0, 0⟩ :=
  ⟨rfl, rfl, rfl, rfl, rfl⟩

/-- C6 counterexample: fiscal year 1 is accepted by the year validation,
yet its quarters do not tile: Q1's end instant falls in calendar year 0
and raises `ValueError`, so the adjacency equations cannot hold there. -/
theorem C6_partition_counterexample :
    quartersPartitionB 1 = false ∧
    fqEnd 1 1 = .error .valueError ∧
    check_year (.int 1) = .ok 1 :=
  ⟨rfl, rfl, rfl⟩

/-- C6 amended: for every fiscal year from 2 through 9999 the four
quarters partition the year's span with no gaps or overlaps — the date of
Q1's end plus one day is the date of Q2's start, and likewise for Q2/Q3
and Q3/Q4.  (For fiscal year 1, also accepted by validation, Q1's
boundary instants fall in calendar year 0 and are unrepresentable.) -/
theorem C6_partition_amended (y : Int) (h2 : 2 ≤ y) (h9 : y ≤ MAXYEAR) :
    quartersPartitionB y = true := by
  have h9a : y ≤ 9999 := h9
  unfold quartersPartitionB
  rw [fqEnd_q1 y h2 h9a, fqStart_q2 y (by omega) h9a, fqEnd_q2 y (by omega) h9a,
      fqStart_q3 y (by omega) h9a, fqEnd_q3 y (by omega) h9a, fqStart_q4 y (by omega) h9a]
  simp only [toDate, nextDay, daysInMonth]
  norm_num

/-- C6 witness: the amended partition property at fiscal year 2017. -/
theorem C6_partition_amended_witness : quartersPartitionB 2017 = true :=
  C6_partition_amended 2017 (by decide) (by decide)

/-- C7 counterexample: at fiscal year 1, quarter 1 — valid constructor
inputs — the round trip fails because `FiscalQuarter(1, 1).start` falls in
calendar year 0 and raises `ValueError`, so the day before it has no
fiscal quarter at all. -/
theorem C7_roundtrip_counterexample :
    roundTripB 1 1 = false ∧ fqStart 1 1 = .error .valueError :=
  ⟨rfl, rfl⟩

/-- C7 amended: for every fiscal year from 2 through 9999 and every
quarter 1-4, the calendar date one day before the quarter's start instant
is a representable date whose fiscal quarter is the previous quarter
(wrapping 1 to 4) and whose fiscal year is unchanged, except quarter 1
where it is the year before.  (For fiscal year 1 the Q1 start instant —
and for Q2 the preceding day — is unrepresentable.) -/
theorem C7_roundtrip_amended (y q : Int) (hy2 : 2 ≤ y) (hy9 : y ≤ MAXYEAR)
    (hq1 : 1 ≤ q) (hq4 : q ≤ 4) : roundTripB y q = true := by
  have hy9a : y ≤ 9999 := hy9
  interval_cases q
  · unfold roundTripB
    rw [fqStart_q1 y hy2 hy9a]
    simp only [toDate, prevDay, daysInMonth, FiscalDate.valid, FiscalDate.quarter,
      FiscalDate.fiscal_year, MINYEAR, MAXYEAR, START_MONTH, MONTHS_PER_QUARTER,
      Bool.and_eq_true, decide_eq_true_eq]
    norm_num [fdiv_12_4, fdiv_0_3, fdiv_1_3, fdiv_2_3, fdiv_3_3, fdiv_4_3, fdiv_5_3,
      fdiv_6_3, fdiv_7_3, fdiv_8_3, fdiv_9_3, fdiv_10_3, fdiv_11_3]
    omega
  · unfold roundTripB
    rw [fqStart_q2 y (by omega) hy9a]
    simp only [toDate, prevDay, daysInMonth, FiscalDate.valid, FiscalDate.quarter,
      FiscalDate.fiscal_year, MINYEAR, MAXYEAR, START_MONTH, MONTHS_PER_QUARTER,
      Bool.and_eq_true, decide_eq_true_eq]
    norm_num [fdiv_12_4, fdiv_0_3, fdiv_1_3, fdiv_2_3, fdiv_3_3, fdiv_4_3, fdiv_5_3,
      fdiv_6_3, fdiv_7_3, fdiv_8_3, fdiv_9_3, fdiv_10_3, fdiv_11_3]
    omega
  · unfold roundTripB
    rw [fqStart_q3 y (by omega) hy9a]
    simp only [toDate, prevDay, daysInMonth, FiscalDate.valid, FiscalDate.quarter,
      FiscalDate.fiscal_year, MINYEAR, MAXYEAR, START_MONTH, MONTHS_PER_QUARTER,
      Bool.and_eq_true, decide_eq_true_eq]
    norm_num [fdiv_12_4, fdiv_0_3, fdiv_1_3, fdiv_2_3, fdiv_3_3, fdiv_4_3, fdiv_5_3,
      fdiv_6_3, fdiv_7_3, fdiv_8_3, fdiv_9_3, fdiv_10_3, fdiv_11_3]
    omega
  · unfold roundTripB
    rw [fqStart_q4 y (by omega) hy9a]
    simp only [toDate, prevDay, daysInMonth, FiscalDate.valid, FiscalDate.quarter,
      FiscalDate.fiscal_year, MINYEAR, MAXYEAR, START_MONTH, MONTHS_PER_QUARTER,
      Bool.and_eq_true, decide_eq_true_eq]
    norm_num [fdiv_12_4, fdiv_0_3, fdiv_1_3, fdiv_2_3, fdiv_3_3, fdiv_4_3, fdiv_5_3,
      fdiv_6_3, fdiv_7_3, fdiv_8_3, fdiv_9_3, fdiv_10_3, fdiv_11_3]
    omega

/-- C7 witness: the amended round trip at fiscal year 2017, quarter 1. -/
theorem C7_roundtrip_amended_witness : roundTripB 2017 1 = true :=
  C7_roundtrip_amended 2017 1 (by decide) (by decide) (by decide) (by decide)

/-- C8: each `FiscalYear` ordering dunder applied to another `FiscalYear`
returns exactly the truth value of the corresponding integer comparison
of the wrapped years — `some false` when the comparison is false, never
`none` — and applied to a value of any other type returns
`NotImplemented` (modelled as `none`) rather than raising. -/
theorem C8_fiscal_year_comparisons (a b : Int) :
    FiscalYear_lt a (.fy b) = some (decide (a < b)) ∧
    FiscalYear_le a (.fy b) = some (decide (a ≤ b)) ∧
    FiscalYear_eq a (.fy b) = some (decide (a = b)) ∧
    FiscalYear_ne a (.fy b) = some (decide (a ≠ b)) ∧
    FiscalYear_gt a (.fy b) = some (decide (a > b)) ∧
    FiscalYear_ge a (.fy b) = some (decide (a ≥ b)) ∧
    FiscalYear_lt a .otherObj = none ∧
    FiscalYear_le a .otherObj = none ∧
    FiscalYear_eq a .otherObj = none ∧
    FiscalYear_ne a .otherObj = none ∧
    FiscalYear_gt a .otherObj = none ∧
    FiscalYear_ge a .otherObj = none :=
  ⟨rfl, rfl, rfl, rfl, rfl, rfl, rfl, rfl, rfl, rfl, rfl, rfl⟩

/-- C9 counterexample: the claim asserts accessing `FiscalYear(1).end`
raises an out-of-range error, but `FiscalYear(1).end` is representable —
it is 0001-09-30T23:59:59, because Q4's end month (September) is below
the start month so the calendar year stays 1. -/
theorem C9_end_counterexample :
    fyEnd 1 = .ok ⟨1, 9, 30, 23, 59, 59⟩ ∧ check_year (.int 1) = .ok 1 :=
  ⟨rfl, rfl⟩

/-- C9 amended: the minimum representable year 1 passes construction
validation, yet `FiscalYear(1).start` and every quarter boundary of
fiscal year 1 whose computed month is at least the start month raise an
out-of-range `ValueError` (the computed calendar year is 0); so
successful construction does not guarantee the derived instants are
representable.  (`FiscalYear(1).end` itself, contrary to the original
claim, succeeds.) -/
theorem C9_min_year_amended (q : Int) (h1 : 1 ≤ q) (h4 : q ≤ 4) :
    check_year (.int 1) = .ok 1 ∧
    fyStart 1 = .error .valueError ∧
    (START_MONTH ≤ fqStartMonth q → fqStart 1 q = .error .valueError) ∧
    (START_MONTH ≤ fqEndMonth q → fqEnd 1 q = .error .valueError) := by
  interval_cases q
  · exact ⟨rfl, rfl, fun _ => rfl, fun _ => rfl⟩
  · exact ⟨rfl, rfl, fun h => absurd h (by decide), fun h => absurd h (by decide)⟩
  · exact ⟨rfl, rfl, fun h => absurd h (by decide), fun h => absurd h (by decide)⟩
  · exact ⟨rfl, rfl, fun h => absurd h (by decide), fun h => absurd h (by decide)⟩

/-- C9 witness: the amended statement at quarter 1, whose start and end
months are both at least the start month. -/
theorem C9_min_year_amended_witness :
    check_year (.int 1) = .ok 1 ∧
    fyStart 1 = .error .valueError ∧
    (START_MONTH ≤ fqStartMonth 1 → fqStart 1 1 = .error .valueError) ∧
    (START_MONTH ≤ fqEndMonth 1 → fqEnd 1 1 = .error .valueError) :=
  C9_min_year_amended 1 (by decide) (by decide)

/-- C10: for every valid calendar date the fiscal quarter, the previous
quarter and the next quarter all lie in 1..4; the previous quarter's
fiscal year is one less than the date's fiscal year exactly when the
quarter is 1, and the next quarter's fiscal year is one more exactly when
the quarter is 4. -/
theorem C10_quarter_invariants (d : FiscalDate) (h : d.valid) :
    (1 ≤ d.quarter ∧ d.quarter ≤ 4) ∧
    (1 ≤ d.prev_quarter ∧ d.prev_quarter ≤ 4) ∧
    (1 ≤ d.next_quarter ∧ d.next_quarter ≤ 4) ∧
    (d.prev_quarter_fiscal_year = d.fiscal_year - 1 ↔ d.quarter = 1) ∧
    (d.next_quarter_fiscal_year = d.fiscal_year + 1 ↔ d.quarter = 4) := by
  obtain ⟨y, m, dd⟩ := d
  obtain ⟨-, -, hm1, hm2, -, -⟩ := h
  simp only [FiscalDate.prev_quarter_fiscal_year, FiscalDate.next_quarter_fiscal_year,
    FiscalDate.prev_quarter, FiscalDate.next_quarter, FiscalDate.quarter,
    FiscalDate.fiscal_year, START_MONTH, MONTHS_PER_QUARTER, fdiv_12_4] at *
  interval_cases m <;>
    norm_num [fdiv_12_4, fdiv_0_3, fdiv_1_3, fdiv_2_3, fdiv_3_3, fdiv_4_3, fdiv_5_3,
      fdiv_6_3, fdiv_7_3, fdiv_8_3, fdiv_9_3, fdiv_10_3, fdiv_11_3] <;> omega

/-- C10 witness: the invariants at the calendar date 2017-10-01. -/
theorem C10_quarter_invariants_witness :
    (1 ≤ FiscalDate.quarter ⟨2017, 10, 1⟩ ∧ FiscalDate.quarter ⟨2017, 10, 1⟩ ≤ 4) ∧
    (1 ≤ FiscalDate.prev_quarter ⟨2017, 10, 1⟩ ∧
      FiscalDate.prev_quarter ⟨2017, 10, 1⟩ ≤ 4) ∧
    (1 ≤ FiscalDate.next_quarter ⟨2017, 10, 1⟩ ∧
      FiscalDate.next_quarter ⟨2017, 10, 1⟩ ≤ 4) ∧
    (FiscalDate.prev_quarter_fiscal_year ⟨2017, 10, 1⟩ =
        FiscalDate.fiscal_year ⟨2017, 10, 1⟩ - 1 ↔ FiscalDate.quarter ⟨2017, 10, 1⟩ = 1) ∧
    (FiscalDate.next_quarter_fiscal_year ⟨2017, 10, 1⟩ =
        FiscalDate.fiscal_year ⟨2017, 10, 1⟩ + 1 ↔ FiscalDate.quarter ⟨2017, 10, 1⟩ = 4) :=
  C10_quarter_invariants ⟨2017, 10, 1⟩ (by decide)

end Fiscalyear
